import Mathlib

/-!
Verification of `allel/stats/mendel.py` against its specification.

The source file provides three components: `mendel_errors`,
`paint_transmission` and `phase_progeny_by_transmission`.  All three
operate elementwise (per variant, per progeny) via broadcasted numpy
operations, so the core is embedded as per-cell functions over integer
allele codes, plus list-based array wrappers for the validation layer.
Helper predicates provided by `allel.model.ndarray` (the genotype
container) and the Cython phasing kernel are not part of the source
under verification; those are modelled from the spec and marked as such.
-/

/-- Modelled from the spec: `GenotypeArray.to_allele_counts` (from
`allel.model.ndarray`, not under src/) produces, per call, the count of
each allele of the given universe occurring in that call; the missing
sentinel (-1) matches no allele index.  This is the count for one
diploid call `(x, y)` at allele index `a`. -/
def alleleCount (x y : Int) (a : Nat) : Int :=
  (if x = (a : Int) then 1 else 0) + (if y = (a : Int) then 1 else 0)

/-- mendel.py line 197: `parent_gc.clip(max=1).sum(axis=1)` at one variant
and one allele index: each parent's allele count clipped to at most 1,
then summed across the two parents. -/
def max_progeny_gc (p1a p1b p2a p2b : Int) (a : Nat) : Int :=
  min (alleleCount p1a p1b a) 1 + min (alleleCount p2a p2b a) 1

/-- mendel.py line 199: `(progeny_gc - max_progeny_gc).clip(min=0).sum(axis=2)`
for one (variant, progeny) cell, over the allele universe `0..u-1`
(`u = max_allele + 1`). -/
def me_base (p1a p1b p2a p2b ca cb : Int) (u : Nat) : Int :=
  ∑ a ∈ Finset.range u,
    max (alleleCount ca cb a - max_progeny_gc p1a p1b p2a p2b a) 0

/-- The availability vector as the spec words it: per allele, take each
parent's allele count clipped to at most 1 and sum across the two
parents. -/
def availability_spec (p1a p1b p2a p2b : Int) (a : Nat) : Int :=
  min (alleleCount p1a p1b a) 1 + min (alleleCount p2a p2b a) 1

/-- The base error count as the spec words it: subtract the availability
vector from the progeny call's allele-count vector, clip negatives to 0,
and sum across alleles. -/
def me_base_spec (p1a p1b p2a p2b ca cb : Int) (u : Nat) : Int :=
  ∑ a ∈ Finset.range u,
    max (alleleCount ca cb a - availability_spec p1a p1b p2a p2b a) 0

/-- mendel.py lines 207-208: parents share no allele when no allele index
has positive count in both parents. -/
@[reducible] def no_shared_alleles (p1a p1b p2a p2b : Int) (u : Nat) : Prop :=
  ∀ a ∈ Finset.range u,
    ¬(0 < alleleCount p1a p1b a ∧ 0 < alleleCount p2a p2b a)

/-- mendel.py lines 211-212: the progeny allele-count vector is identical
to the given parent's allele-count vector. -/
@[reducible] def progeny_eq_parent (pa pb ca cb : Int) (u : Nat) : Prop :=
  ∀ a ∈ Finset.range u, alleleCount ca cb a = alleleCount pa pb a

/-- mendel.py lines 210-212: the uniparental-override condition: parents
share no allele and the progeny call is allele-identical to one parent
or the other. -/
@[reducible] def uniparental (p1a p1b p2a p2b ca cb : Int) (u : Nat) : Prop :=
  no_shared_alleles p1a p1b p2a p2b u ∧
    (progeny_eq_parent p1a p1b ca cb u ∨ progeny_eq_parent p2a p2b ca cb u)

/-- mendel.py lines 201-212: the error count after the uniparental
override has been applied on top of the base count. -/
def me_step4 (p1a p1b p2a p2b ca cb : Int) (u : Nat) : Int :=
  if uniparental p1a p1b p2a p2b ca cb u then 1
  else me_base p1a p1b p2a p2b ca cb u

/-- Modelled from the spec: `GenotypeArray.is_missing` (from
`allel.model.ndarray`, not under src/): a call is missing iff any of its
ploidy entries is the negative sentinel. -/
@[reducible] def call_is_missing (x y : Int) : Prop := x < 0 ∨ y < 0

/-- mendel.py lines 188-215, one (variant, progeny) cell: base count,
then the uniparental override, then the missing-parent override (line
215) which is applied last and wins. -/
def me_cell (p1a p1b p2a p2b ca cb : Int) (u : Nat) : Int :=
  if call_is_missing p1a p1b ∨ call_is_missing p2a p2b then 0
  else me_step4 p1a p1b p2a p2b ca cb u

/-- Claim C1: the Mendel-error detector's base count for each
(variant, progeny) cell equals the spec's formula: per allele, each
parent's count clipped to at most 1 and summed across the two parents
gives the availability vector; the base count is the progeny
allele-count vector minus availability, clipped at 0, summed across
alleles. -/
theorem me_base_eq_spec_c1 (p1a p1b p2a p2b ca cb : Int) (u : Nat) :
    me_base p1a p1b p2a p2b ca cb u = me_base_spec p1a p1b p2a p2b ca cb u := rfl

lemma alleleCount_nonneg (x y : Int) (a : Nat) : 0 ≤ alleleCount x y a := by
  unfold alleleCount; split <;> split <;> omega

lemma alleleCount_missing_call (a : Nat) : alleleCount (-1) (-1) a = 0 := by
  unfold alleleCount
  rw [if_neg (by omega)]
  rfl

lemma alleleCount_self_pos (x y : Int) (hx : 0 ≤ x) :
    0 < alleleCount x y x.toNat := by
  unfold alleleCount
  rw [Int.toNat_of_nonneg hx, if_pos rfl]
  split <;> omega

lemma max_progeny_gc_nonneg (p1a p1b p2a p2b : Int) (a : Nat) :
    0 ≤ max_progeny_gc p1a p1b p2a p2b a := by
  have h1 := alleleCount_nonneg p1a p1b a
  have h2 := alleleCount_nonneg p2a p2b a
  unfold max_progeny_gc
  have := le_min h1 (zero_le_one (α := Int))
  have := le_min h2 (zero_le_one (α := Int))
  omega

lemma me_base_eq_zero_of_subset (p1a p1b p2a p2b ca cb : Int) (u : Nat)
    (hsub : ∀ a ∈ Finset.range u,
      alleleCount ca cb a ≤ max_progeny_gc p1a p1b p2a p2b a) :
    me_base p1a p1b p2a p2b ca cb u = 0 := by
  unfold me_base
  apply Finset.sum_eq_zero
  intro a ha
  exact max_eq_right (by have := hsub a ha; omega)

/-- Claim C2: when the two parents share no allele and the progeny call's
allele-count vector is identical to one parent's or the other's, the
uniparental override forces the error count for that cell to exactly 1,
overriding the base count of step 3. -/
theorem mendel_uniparental_forces_one_c2 (p1a p1b p2a p2b ca cb : Int) (u : Nat)
    (h : uniparental p1a p1b p2a p2b ca cb u) :
    me_step4 p1a p1b p2a p2b ca cb u = 1 := by
  unfold me_step4
  exact if_pos h

/-- Witness for C2: parents aa x bb share no allele; progeny aa is
identical to the first parent; the override yields 1 (while the base
count there is also overridden from its own value). -/
theorem mendel_uniparental_forces_one_c2_witness :
    me_step4 0 0 1 1 0 0 2 = 1 :=
  mendel_uniparental_forces_one_c2 0 0 1 1 0 0 2 (by decide)

/-- Counterexample to claim C3 as stated: for parents ab x cd and progeny
ab, every progeny allele count is within the combined per-parent
availability, yet the Mendel-error count is 1 (the uniparental override
fires because the parents share no allele and the progeny call equals
the first parent), not 0. -/
theorem mendel_subset_zero_c3_counterexample :
    (∀ a ∈ Finset.range 4, alleleCount 0 1 a ≤ max_progeny_gc 0 1 2 3 a) ∧
      ¬(me_cell 0 1 2 3 0 1 4 = 0) := by
  refine ⟨by decide, by decide⟩

/-- Claim C3 (amended): if every progeny allele count is within the
combined per-parent availability AND the uniparental-override condition
(parents share no allele and the progeny allele-count vector equals one
parent's) does not hold, then the Mendel-error count for that cell is 0. -/
theorem mendel_subset_zero_c3 (p1a p1b p2a p2b ca cb : Int) (u : Nat)
    (hsub : ∀ a ∈ Finset.range u,
      alleleCount ca cb a ≤ max_progeny_gc p1a p1b p2a p2b a)
    (hu : ¬uniparental p1a p1b p2a p2b ca cb u) :
    me_cell p1a p1b p2a p2b ca cb u = 0 := by
  unfold me_cell
  split
  · rfl
  · unfold me_step4
    rw [if_neg hu]
    exact me_base_eq_zero_of_subset p1a p1b p2a p2b ca cb u hsub

/-- Witness for amended C3: parents aa x ab, progeny aa: within
availability, parents share allele 0 so no uniparental override;
error count 0. -/
theorem mendel_subset_zero_c3_witness : me_cell 0 0 0 1 0 0 2 = 0 :=
  mendel_subset_zero_c3 0 0 0 1 0 0 2 (by decide) (by decide)

/-- Claim C4: whenever either parent (or both) has any missing allele at
a variant, the Mendel-error output for every progeny cell there is 0;
the override is applied last in `me_cell`, so it takes precedence over
both the base count and the uniparental override. -/
theorem mendel_missing_parent_zero_c4 (p1a p1b p2a p2b ca cb : Int) (u : Nat)
    (h : call_is_missing p1a p1b ∨ call_is_missing p2a p2b) :
    me_cell p1a p1b p2a p2b ca cb u = 0 := by
  unfold me_cell
  exact if_pos h

/-- Witness for C4: first parent has one missing allele; the progeny
call cc would otherwise score, but the output is 0. -/
theorem mendel_missing_parent_zero_c4_witness : me_cell (-1) 0 1 1 2 2 3 = 0 :=
  mendel_missing_parent_zero_c4 (-1) 0 1 1 2 2 3 (Or.inl (Or.inl (by decide)))

/-- Claim C9: a fully-missing progeny call always scores 0, for every
pair of parent calls whose alleles lie in the allele universe (as they
do in `mendel_errors`, where the universe bound is the global maximum
allele); in contrast a progeny call with exactly one missing allele can
still score 1, as aa x aa -> (-1)b does. -/
theorem mendel_fully_missing_progeny_c9 (u : Nat) (p1a p1b p2a p2b : Int)
    (h1 : p1a < u) (h2 : p1b < u) (h3 : p2a < u) (h4 : p2b < u) :
    me_cell p1a p1b p2a p2b (-1) (-1) u = 0 ∧ me_cell 0 0 0 0 (-1) 1 2 = 1 := by
  refine ⟨?_, by decide⟩
  unfold me_cell
  split
  · rfl
  · rename_i hm
    simp only [call_is_missing, not_or, not_lt] at hm
    obtain ⟨⟨hp1a, hp1b⟩, hp2a, hp2b⟩ := hm
    unfold me_step4
    rw [if_neg, me_base_eq_zero_of_subset]
    · intro a _
      rw [alleleCount_missing_call]
      exact max_progeny_gc_nonneg p1a p1b p2a p2b a
    · rintro ⟨-, hid | hid⟩
      · have ha : p1a.toNat ∈ Finset.range u := Finset.mem_range.mpr (by omega)
        have heq := hid p1a.toNat ha
        have hpos := alleleCount_self_pos p1a p1b hp1a
        rw [alleleCount_missing_call] at heq
        omega
      · have ha : p2a.toNat ∈ Finset.range u := Finset.mem_range.mpr (by omega)
        have heq := hid p2a.toNat ha
        have hpos := alleleCount_self_pos p2a p2b hp2a
        rw [alleleCount_missing_call] at heq
        omega

/-- Witness for C9: concrete parents aa x bb within universe of size 2;
a fully-missing progeny call scores 0. -/
theorem mendel_fully_missing_progeny_c9_witness :
    me_cell 0 0 1 1 (-1) (-1) 2 = 0 ∧ me_cell 0 0 0 0 (-1) 1 2 = 1 :=
  mendel_fully_missing_progeny_c9 2 0 0 1 1 (by decide) (by decide)
    (by decide) (by decide)

/-- mendel.py line 289: the progeny haplotype allele is missing. -/
@[reducible] def progeny_hap_is_missing (c : Int) : Prop := c < 0

/-- mendel.py line 290: either parental haplotype allele is missing. -/
@[reducible] def parent_hap_is_missing (h1 h2 : Int) : Prop := h1 < 0 ∨ h2 < 0

/-- mendel.py line 299: inheritance can be determined when neither the
progeny allele nor either parental allele is missing. -/
@[reducible] def is_callable (h1 h2 c : Int) : Prop :=
  ¬progeny_hap_is_missing c ∧ ¬parent_hap_is_missing h1 h2

/-- Modelled from the spec: `GenotypeArray.is_het` (from
`allel.model.ndarray`, not under src/): the parent diplotype is
heterozygous when both alleles are non-missing and differ. -/
@[reducible] def parent_is_het (h1 h2 : Int) : Prop :=
  0 ≤ h1 ∧ 0 ≤ h2 ∧ h1 ≠ h2

/-- Modelled from the spec: `GenotypeArray.is_hom_ref` (from
`allel.model.ndarray`, not under src/): both alleles equal the
reference allele 0. -/
@[reducible] def parent_is_hom_ref (h1 h2 : Int) : Prop := h1 = 0 ∧ h2 = 0

/-- Modelled from the spec: `GenotypeArray.is_hom_alt` (from
`allel.model.ndarray`, not under src/): both alleles equal and
non-reference. -/
@[reducible] def parent_is_hom_alt (h1 h2 : Int) : Prop := h1 = h2 ∧ 0 < h1

/-- mendel.py line 303: callable, parent heterozygous, progeny allele
equals the first parental haplotype. -/
@[reducible] def inherit_parent1_cond (h1 h2 c : Int) : Prop :=
  is_callable h1 h2 c ∧ parent_is_het h1 h2 ∧ c = h1

/-- mendel.py line 304: callable, parent heterozygous, progeny allele
equals the second parental haplotype. -/
@[reducible] def inherit_parent2_cond (h1 h2 c : Int) : Prop :=
  is_callable h1 h2 c ∧ parent_is_het h1 h2 ∧ c = h2

/-- mendel.py lines 305-309: callable, parent homozygous reference,
progeny allele equals the parental allele. -/
@[reducible] def nonseg_ref_cond (h1 h2 c : Int) : Prop :=
  is_callable h1 h2 c ∧ parent_is_hom_ref h1 h2 ∧ c = h1

/-- mendel.py lines 310-314: callable, parent homozygous non-reference,
progeny allele equals the parental allele. -/
@[reducible] def nonseg_alt_cond (h1 h2 c : Int) : Prop :=
  is_callable h1 h2 c ∧ parent_is_hom_alt h1 h2 ∧ c = h1

/-- mendel.py lines 315-319: callable, progeny allele differs from both
parental alleles. -/
@[reducible] def nonparental_cond (h1 h2 c : Int) : Prop :=
  is_callable h1 h2 c ∧ c ≠ h1 ∧ c ≠ h2

/-- mendel.py lines 321-332: the painting for one
(variant, progeny-haplotype) cell.  The source writes the constants
1,2,3,4,5,6,7 through boolean masks in that order into a zero buffer, so
each cell receives the last matching state; this is equivalent to
testing the conditions in reverse order. -/
def paint_cell (h1 h2 c : Int) : Nat :=
  if progeny_hap_is_missing c then 7
  else if parent_hap_is_missing h1 h2 then 6
  else if nonparental_cond h1 h2 c then 5
  else if nonseg_alt_cond h1 h2 c then 4
  else if nonseg_ref_cond h1 h2 c then 3
  else if inherit_parent2_cond h1 h2 c then 2
  else if inherit_parent1_cond h1 h2 c then 1
  else 0

/-- Claim C5: every painted cell is one of the eight codes 0..7, and a
missing progeny allele is always painted 7, regardless of every other
condition (it is the last mask written, hence the highest priority). -/
theorem paint_cell_range_missing_c5 (h1 h2 c : Int) :
    paint_cell h1 h2 c ≤ 7 ∧ (c < 0 → paint_cell h1 h2 c = 7) := by
  constructor
  · unfold paint_cell
    split
    · omega
    split
    · omega
    split
    · omega
    split
    · omega
    split
    · omega
    split
    · omega
    split <;> omega
  · intro hc
    unfold paint_cell
    rw [if_pos hc]

/-- Witness for C5: a missing progeny allele is painted 7 even under
non-missing homozygous parents. -/
theorem paint_cell_range_missing_c5_witness : paint_cell 0 0 (-1) = 7 :=
  (paint_cell_range_missing_c5 0 0 (-1)).2 (by decide)

/-- Claim C6: the conditions for states 1 and 2 (heterozygous parent)
are mutually exclusive with the conditions for states 3 and 4
(homozygous parent) at every cell. -/
theorem paint_het_hom_exclusive_c6 (h1 h2 c : Int)
    (h : inherit_parent1_cond h1 h2 c ∨ inherit_parent2_cond h1 h2 c) :
    ¬(nonseg_ref_cond h1 h2 c ∨ nonseg_alt_cond h1 h2 c) := by
  rintro (⟨-, ⟨hr1, hr2⟩, -⟩ | ⟨-, ⟨ha1, ha2⟩, -⟩) <;>
    rcases h with ⟨-, ⟨-, -, hne⟩, -⟩ | ⟨-, ⟨-, -, hne⟩, -⟩ <;> omega

/-- Witness for C6: parent 01 is heterozygous and progeny allele 0 is
inherited from the first parental haplotype; neither homozygous state
condition can hold there. -/
theorem paint_het_hom_exclusive_c6_witness :
    ¬(nonseg_ref_cond 0 1 0 ∨ nonseg_alt_cond 0 1 0) :=
  paint_het_hom_exclusive_c6 0 1 0 (Or.inl (by decide))

/-- Modelled from the spec: one candidate assignment of the ordered
progeny allele pair (x from parent 1, y from parent 2) is consistent
when x is one of parent 1's alleles and y is one of parent 2's. -/
@[reducible] def transmission_consistent (p1a p1b p2a p2b x y : Int) : Prop :=
  (x = p1a ∨ x = p1b) ∧ (y = p2a ∨ y = p2b)

/-- Modelled from the spec: `phase_progeny_by_transmission_int8` (from
`allel.opt.stats`, not under src/), one (variant, progeny sample) cell:
if any of the three calls involved has a missing allele the sample is
left unphased and unchanged; otherwise the sample is phased, reordered
to (parent-1-contributed, parent-2-contributed), precisely when the
assignment of the two progeny alleles to the two parents admits exactly
one consistent solution. -/
def phase_call (p1a p1b p2a p2b ca cb : Int) : (Int × Int) × Bool :=
  if p1a < 0 ∨ p1b < 0 ∨ p2a < 0 ∨ p2b < 0 ∨ ca < 0 ∨ cb < 0 then
    ((ca, cb), false)
  else if ca = cb then
    if transmission_consistent p1a p1b p2a p2b ca cb then ((ca, cb), true)
    else ((ca, cb), false)
  else if transmission_consistent p1a p1b p2a p2b ca cb ∧
      ¬transmission_consistent p1a p1b p2a p2b cb ca then ((ca, cb), true)
  else if transmission_consistent p1a p1b p2a p2b cb ca ∧
      ¬transmission_consistent p1a p1b p2a p2b ca cb then ((cb, ca), true)
  else ((ca, cb), false)

/-- Modelled from the spec: one variant row of the phaser.  Samples
0 and 1 are the parents and are passed through unchanged and reported
unphased; every later sample is decided independently by `phase_call`. -/
def phase_variant (row : List (List Int)) : List (List Int) × List Bool :=
  let p1 := row.getD 0 []
  let p2 := row.getD 1 []
  let res := (row.drop 2).map fun c =>
    phase_call (p1.getD 0 (-1)) (p1.getD 1 (-1)) (p2.getD 0 (-1))
      (p2.getD 1 (-1)) (c.getD 0 (-1)) (c.getD 1 (-1))
  (p1 :: p2 :: res.map (fun r => [r.1.1, r.1.2]),
   false :: false :: res.map (fun r => r.2))

/-- The phaser's genotype output over the whole array. -/
def phase_genotypes (g : List (List (List Int))) : List (List (List Int)) :=
  g.map fun r => (phase_variant r).1

/-- The phaser's `is_phased` output over the whole array. -/
def phase_is_phased (g : List (List (List Int))) : List (List Bool) :=
  g.map fun r => (phase_variant r).2

/-- numpy shape introspection on a nested-list genotype array: the
ploidy is the length of the innermost axis. -/
def ploidyOf (g : List (List (List Int))) : Nat :=
  ((g.headD []).headD []).length

/-- Number of samples: the length of the second axis. -/
def n_samples (g : List (List (List Int))) : Nat := (g.headD []).length

/-- Number of haplotypes of a 2-axis haplotype array. -/
def n_haplotypes (h : List (List Int)) : Nat := (h.headD []).length

/-- `arr.max()` over a 3-axis array (every entry is at least the missing
sentinel -1 in valid data). -/
def arr_max3 (g : List (List (List Int))) : Int :=
  g.foldl (fun m v => v.foldl (fun m2 c => c.foldl max m2) m) (-1)

/-- mendel.py lines 182-217: `mendel_errors` with its validation layer.
Modelled from the spec where it leans on the container:
`err_diploid_only` (from `allel.errors`, not under src/) raises
"operation requires diploid data". -/
def mendel_errors (gpar gprog : List (List (List Int))) :
    Except String (List (List Int)) :=
  if ploidyOf gpar ≠ 2 ∨ ploidyOf gprog ≠ 2 then
    Except.error "operation requires diploid data"
  else
    let u := (max (arr_max3 gpar) (arr_max3 gprog) + 1).toNat
    Except.ok ((gpar.zip gprog).map fun pr =>
      let p1 := pr.1.getD 0 []
      let p2 := pr.1.getD 1 []
      pr.2.map fun c =>
        me_cell (p1.getD 0 (-1)) (p1.getD 1 (-1)) (p2.getD 0 (-1))
          (p2.getD 1 (-1)) (c.getD 0 (-1)) (c.getD 1 (-1)) u)

/-- mendel.py lines 280-332: `paint_transmission` with its validation
layer. -/
def paint_transmission (par prog : List (List Int)) :
    Except String (List (List Nat)) :=
  if n_haplotypes par ≠ 2 then
    Except.error "exactly two parental haplotypes should be provided"
  else
    Except.ok ((par.zip prog).map fun pr =>
      pr.2.map fun c => paint_cell (pr.1.getD 0 (-1)) (pr.1.getD 1 (-1)) c)

/-- mendel.py lines 408-430: `phase_progeny_by_transmission` with its
validation layer (ploidy checked first, then the sample count). -/
def phase_progeny_by_transmission (g : List (List (List Int))) (copy : Bool) :
    Except String (List (List (List Int)) × List (List Bool)) :=
  if ploidyOf g ≠ 2 then Except.error "operation requires diploid data"
  else if n_samples g < 3 then
    Except.error
      ("bad genotypes: at least three samples required (2 parents and 1 or more progeny); found "
        ++ toString (n_samples g))
  else Except.ok (phase_genotypes g, phase_is_phased g)

/-- Claim C8: in the phaser's `is_phased` output, the two parent columns
(samples 0 and 1) are false at every variant; only progeny columns can
be true. -/
theorem phase_parent_cols_unphased_c8 (g : List (List (List Int))) (i : Nat) :
    ((phase_is_phased g).getD i []).getD 0 false = false ∧
      ((phase_is_phased g).getD i []).getD 1 false = false := by
  induction g generalizing i with
  | nil => simp [phase_is_phased]
  | cons hd tl ih =>
    cases i with
    | zero => exact ⟨rfl, rfl⟩
    | succ n => simpa [phase_is_phased] using ih n

/-- numpy dtypes relevant to the phaser: int8 or anything else. -/
inductive NpDtype
  | i1
  | other
deriving DecidableEq

/-- Modelled from numpy semantics, for the buffer handling on mendel.py
lines 418-423: `copy=True` first copies into a fresh buffer;
`g.astype('i1', copy=False)` returns the same buffer iff the dtype is
already int8, and otherwise allocates a fresh int8 buffer.  Returns
whether the buffer later mutated in place by the phasing kernel aliases
the caller's buffer, paired with its dtype. -/
def phase_buffer_setup (copy : Bool) (d : NpDtype) : Bool × NpDtype :=
  let aliases := !copy
  if d = NpDtype.i1 then (aliases, NpDtype.i1) else (false, NpDtype.i1)

/-- Claim C10: the genotype array the phaser mutates and returns always
has dtype int8; with `copy=True` it never aliases the caller's array;
with `copy=False` it aliases the caller's array (so in-place mutation
reaches the caller) exactly when the input dtype was already int8 —
any other dtype forces a fresh allocation in the conversion. -/
theorem phase_buffer_c10 (c : Bool) (d : NpDtype) :
    (phase_buffer_setup c d).2 = NpDtype.i1 ∧
      (phase_buffer_setup true d).1 = false ∧
      ((phase_buffer_setup false d).1 = true ↔ d = NpDtype.i1) := by
  cases d <;> cases c <;> simp [phase_buffer_setup]

/-- Claim C7: each component's precondition check aborts with its
validation error before producing any output: `mendel_errors` on
non-diploid input; `paint_transmission` unless exactly two parental
haplotypes; `phase_progeny_by_transmission` on non-diploid input
(checked first) and on fewer than three samples.  The embedding returns
`Except.error`, so a failed precondition yields no partial result, and
the caller's data is untouched. -/
theorem preconditions_abort_c7 :
    (∀ gpar gprog, ploidyOf gpar ≠ 2 ∨ ploidyOf gprog ≠ 2 →
      mendel_errors gpar gprog =
        Except.error "operation requires diploid data") ∧
    (∀ par prog, n_haplotypes par ≠ 2 →
      paint_transmission par prog =
        Except.error "exactly two parental haplotypes should be provided") ∧
    (∀ g c, ploidyOf g ≠ 2 →
      phase_progeny_by_transmission g c =
        Except.error "operation requires diploid data") ∧
    (∀ g c, ploidyOf g = 2 → n_samples g < 3 →
      phase_progeny_by_transmission g c =
        Except.error
          ("bad genotypes: at least three samples required (2 parents and 1 or more progeny); found "
            ++ toString (n_samples g))) := by
  refine ⟨?_, ?_, ?_, ?_⟩
  · intro gpar gprog h
    unfold mendel_errors
    rw [if_pos h]
  · intro par prog h
    unfold paint_transmission
    rw [if_pos h]
  · intro g c h
    unfold phase_progeny_by_transmission
    rw [if_pos h]
  · intro g c h2 h3
    unfold phase_progeny_by_transmission
    rw [if_neg (by omega), if_pos h3]

/-- Witness for C7: each validation fires at a concrete bad input. -/
theorem preconditions_abort_c7_witness :
    mendel_errors [] [] = Except.error "operation requires diploid data" ∧
      paint_transmission [] [] =
        Except.error "exactly two parental haplotypes should be provided" ∧
      phase_progeny_by_transmission [] true =
        Except.error "operation requires diploid data" ∧
      phase_progeny_by_transmission [[[0, 0], [0, 0]]] false =
        Except.error
          ("bad genotypes: at least three samples required (2 parents and 1 or more progeny); found "
            ++ toString (n_samples [[[0, 0], [0, 0]]])) :=
  ⟨preconditions_abort_c7.1 [] [] (Or.inl (by decide)),
   preconditions_abort_c7.2.1 [] [] (by decide),
   preconditions_abort_c7.2.2.1 [] true (by decide),
   preconditions_abort_c7.2.2.2 [[[0, 0], [0, 0]]] false (by decide) (by decide)⟩
